import Mathlib

/-!
Verification of the winner-determination and flip-counting computation of an
election-dashboard repository (`src/graphs/flip_chart.py`, `src/graphs/map_chart.py`).

The tabular data is embedded shallowly: a `DataFrame` is a list of column names
together with a list of rows; a `Row` carries the typed columns the computation
reads (`year`, `party_simplified`, `candidatevotes`) plus an association list of
string-valued cells for the state-identifier columns (a missing key models a
null/NaN cell).  Fallible steps (the missing-state-column error) return
`Except String`.
-/

/-- One ballot row.  `cells` holds the non-null values of the string-typed
state-identifier columns, keyed by column name; a key absent from `cells`
models a null (NaN) cell.  `candidatevotes` is numeric-or-null. -/
structure Row where
  year : Int
  party_simplified : String
  candidatevotes : Option Int
  cells : List (String × String)
deriving DecidableEq, Repr

/-- Cell access for a state-identifier column: the value stored for column
`c`, or `none` when the cell is null. -/
def Row.get (r : Row) (c : String) : Option String :=
  (r.cells.find? (fun p => p.1 == c)).map (fun p => p.2)

/-- A dataset: the list of column names and the list of rows. -/
structure DataFrame where
  columns : List String
  rows : List Row
deriving DecidableEq, Repr

/-- Default votes used when comparing rows that already passed the
`candidatevotes.notna()` filter (where the option is always `some`). -/
def votesD (r : Row) : Int :=
  r.candidatevotes.getD 0

/-- The canonical 50 US state postal codes (`US_50_STATES` in
`map_chart.py`). -/
def US_50_STATES : List String :=
  ["AL","AK","AZ","AR","CA","CO","CT","DE","FL","GA","HI","ID","IL","IN","IA",
   "KS","KY","LA","ME","MD","MA","MI","MN","MS","MO","MT","NE","NV","NH","NJ","NM",
   "NY","NC","ND","OH","OK","OR","PA","RI","SC","SD","TN","TX","UT","VT","VA","WA",
   "WV","WI","WY"]

/-- ASCII lowercasing of one character (the case Python's `str.lower`
performs on the ASCII column names at play). -/
def lowerChar (c : Char) : Char :=
  if 65 ≤ c.toNat ∧ c.toNat ≤ 90 then Char.ofNat (c.toNat + 32) else c

/-- ASCII lowercasing of a column name (`c.lower()` in the source). -/
def lowerStr (s : String) : String :=
  String.mk (s.data.map lowerChar)

/-- The state-identifier columns of a dataset: the columns whose lowercased
name is `state_po` or `state` (the list comprehension in
`get_display_states`). -/
def stateCols (df : DataFrame) : List String :=
  df.columns.filter (fun c => lowerStr c == "state_po" || lowerStr c == "state")

/-- Embedding of `get_display_states` from `map_chart.py`: the canonical 50 states, with
`DC` appended when `DC` occurs as a (non-null) value of some state column. -/
def get_display_states (df : DataFrame) : List String :=
  let display := US_50_STATES
  let cols := stateCols df
  if cols ≠ [] then
    let hasDC := cols.any (fun c => df.rows.any (fun r => r.get c == some "DC"))
    if hasDC ∧ "DC" ∉ display then display ++ ["DC"] else display
  else display

/-- The group-column resolution at the top of `_winners_by_state_year`:
prefer the exact names `state_po` then `state`; failing that, the first
column whose lowercased name matches; else `none` (which the caller turns
into the `No state column found` error). -/
def resolveGroupCol (cols : List String) : Option String :=
  match ["state_po", "state"].find? (fun p => cols.contains p) with
  | some c => some c
  | none => cols.find? (fun c => lowerStr c == "state_po" || lowerStr c == "state")

/-- The rows that survive the `candidatevotes.notna()` filter and carry a
non-null group-column cell (pandas `groupby` drops null group keys). -/
def qualRows (df : DataFrame) (g : String) : List Row :=
  df.rows.filter (fun r => r.candidatevotes.isSome && (r.get g).isSome)

/-- The qualifying rows of one `(state_code, year)` group, in input order. -/
def groupRows (df : DataFrame) (g : String) (s : String) (y : Int) : List Row :=
  (qualRows df g).filter (fun r => r.get g == some s && r.year == y)

/-- Left-to-right maximum scan keeping the earlier row on ties: the
behaviour of pandas `idxmax`, which returns the first occurrence of the
maximum. -/
def pickMax (b : Row) : List Row → Row
  | [] => b
  | r :: rs => pickMax (if votesD b < votesD r then r else b) rs

/-- First row attaining the maximal `candidatevotes` in a list, `none` on
the empty list. -/
def argmaxFirst : List Row → Option Row
  | [] => none
  | r :: rs => some (pickMax r rs)

/-- The Winner Record of `(s, y)`: among the qualifying rows of that group,
the first row with maximal `candidatevotes` (`idxmax` + `df.loc`), or
`none` when the group has no qualifying row. -/
def winnerFor (df : DataFrame) (g : String) (s : String) (y : Int) : Option Row :=
  argmaxFirst (groupRows df g s y)

/-- The winning party at `(s, y)`: the cell the pivot table
(`values='party_simplified', aggfunc='first'`) exposes to `count_flips`,
`none` on a no-race pair. -/
def winnerParty (df : DataFrame) (g : String) (s : String) (y : Int) : Option String :=
  (winnerFor df g s y).map (fun r => r.party_simplified)

/-- The distinct state codes of the winner table (the pivot's row index). -/
def winnerStates (df : DataFrame) (g : String) : List String :=
  ((qualRows df g).filterMap (fun r => r.get g)).eraseDups

/-- Insert into an ascending list, keeping it ascending. -/
def insertSorted (y : Int) : List Int → List Int
  | [] => [y]
  | a :: t => if y ≤ a then y :: a :: t else a :: insertSorted y t

/-- Ascending insertion sort (Python's `sorted` on a set of years). -/
def sortInts (l : List Int) : List Int :=
  l.foldr insertSorted []

/-- The sorted distinct years of the winner table
(`sorted({y for (_, y) in winners.index})`). -/
def winnerYears (df : DataFrame) (g : String) : List Int :=
  sortInts (((qualRows df g).map (fun r => r.year)).eraseDups)

/-- The loop body of `count_flips` in `flip_chart.py`: walk the per-year
party sequence with the current `prev` and accumulated flip count.  A null
cell (`pd.isna`) resets `prev` to `None` — the source comment reads
"no race, skip but set prev to None to avoid counting when race appears
later". -/
def countFlipsAux : Option String → Nat → List (Option String) → Nat
  | _, acc, [] => acc
  | _, acc, none :: rest => countFlipsAux none acc rest
  | none, acc, some v :: rest => countFlipsAux (some v) acc rest
  | some p, acc, some v :: rest =>
      if v ≠ p then countFlipsAux (some v) (acc + 1) rest
      else countFlipsAux (some p) acc rest

/-- Embedding of `count_flips` from `flip_chart.py`, as a function of the per-year party
sequence (the row of the pivot restricted to `years_range`). -/
def count_flips (seq : List (Option String)) : Nat :=
  countFlipsAux none 0 seq

/-- The years the flip scan iterates: the winner-table years clipped to the
requested `[start_year, end_year]` (with `None` endpoints defaulting to the
data's min/max year). -/
def yearsRange (df : DataFrame) (g : String)
    (start_year end_year : Option Int) : List Int :=
  match winnerYears df g with
  | [] => []
  | y0 :: t =>
      let s := start_year.getD y0
      let e := end_year.getD ((y0 :: t).getLast (List.cons_ne_nil y0 t))
      (y0 :: t).filter (fun y => s ≤ y && y ≤ e)

/-- The flip count `count_flips` assigns to one state: the scan over that
state's pivot row restricted to the iterated years. -/
def stateCount (df : DataFrame) (g : String) (yrs : List Int) (s : String) : Nat :=
  count_flips (yrs.map (fun y => winnerParty df g s y))

/-- Embedding of `compute_flip_counts` from `flip_chart.py`: resolve the group column
(raising `No state column found` when none matches), return the empty
frame when the winner table is empty, otherwise scan each pivot row and
reindex against the display states with `fillna(0)`.  The result is the
ordered association list `state_po ↦ flip_count`. -/
def compute_flip_counts (df : DataFrame)
    (start_year end_year : Option Int) : Except String (List (String × Nat)) :=
  match resolveGroupCol df.columns with
  | none => .error "No state column found"
  | some g =>
      if winnerYears df g = [] then .ok []
      else
        let yrs := yearsRange df g start_year end_year
        let pivotStates := winnerStates df g
        let display := get_display_states df
        .ok (display.map (fun st =>
          (st, if pivotStates.contains st then stateCount df g yrs st else 0)))

/-- Lookup in the result association list (`flip_counts[s]`). -/
def lookupCount (l : List (String × Nat)) (s : String) : Option Nat :=
  (l.find? (fun p => p.1 == s)).map (fun p => p.2)

/-! ## Helper lemmas about the flip scan -/

theorem countFlipsAux_add (l : List (Option String)) :
    ∀ (p : Option String) (acc : Nat), countFlipsAux p acc l = acc + countFlipsAux p 0 l := by
  induction l with
  | nil => intro p acc; simp [countFlipsAux]
  | cons a t ih =>
      intro p acc
      cases a with
      | none => simp only [countFlipsAux]; rw [ih none acc]
      | some v =>
          cases p with
          | none => simp only [countFlipsAux]; rw [ih (some v) acc]
          | some q =>
              by_cases h : v ≠ q
              · simp only [countFlipsAux, if_pos h]
                rw [ih (some v) (acc + 1), ih (some v) 1]
                omega
              · simp only [countFlipsAux, if_neg h]
                rw [ih (some q) acc]

theorem countFlipsAux_append_none (l1 l2 : List (Option String)) :
    ∀ (p : Option String) (acc : Nat),
      countFlipsAux p acc (l1 ++ none :: l2) = countFlipsAux p acc l1 + countFlipsAux none 0 l2 := by
  induction l1 with
  | nil =>
      intro p acc
      simp only [List.nil_append, countFlipsAux]
      rw [countFlipsAux_add l2 none acc]
  | cons a t ih =>
      intro p acc
      cases a with
      | none =>
          simp only [List.cons_append, countFlipsAux, List.append_eq]
          rw [ih none acc]
      | some v =>
          cases p with
          | none =>
              simp only [List.cons_append, countFlipsAux, List.append_eq]
              rw [ih (some v) acc]
          | some q =>
              by_cases h : v ≠ q
              · simp only [List.cons_append, countFlipsAux, if_pos h, List.append_eq]
                rw [ih (some v) (acc + 1)]
              · simp only [List.cons_append, countFlipsAux, if_neg h, List.append_eq]
                rw [ih (some q) acc]

theorem countFlipsAux_all_none (l : List (Option String)) (hl : ∀ x ∈ l, x = none) :
    ∀ (p : Option String) (acc : Nat), countFlipsAux p acc l = acc := by
  induction l with
  | nil => intro p acc; cases p <;> rfl
  | cons a t ih =>
      intro p acc
      have ha : a = none := hl a (by simp)
      subst ha
      simp only [countFlipsAux]
      exact ih (fun x hx => hl x (by simp [hx])) none acc

theorem count_flips_of_le_one (l : List (Option String))
    (h : (l.filter (fun o => o.isSome)).length ≤ 1) : count_flips l = 0 := by
  suffices hgen : ∀ acc, countFlipsAux none acc l = acc by
    simpa [count_flips] using hgen 0
  induction l with
  | nil => intro acc; rfl
  | cons a t ih =>
      intro acc
      cases a with
      | none =>
          simp only [countFlipsAux]
          exact ih (by simpa using h) acc
      | some v =>
          simp only [countFlipsAux]
          have h1 : (t.filter (fun o => o.isSome)).length + 1 ≤ 1 := by
            simpa [List.filter_cons] using h
          have h0 : t.filter (fun o => o.isSome) = [] :=
            List.length_eq_zero.mp (by omega)
          have hnone : ∀ x ∈ t, x = none := by
            intro x hx
            cases x with
            | none => rfl
            | some w =>
                have := List.filter_eq_nil_iff.mp h0 (some w) hx
                simp at this
          exact countFlipsAux_all_none t hnone (some v) acc

theorem countFlipsAux_alternating (t : List String) :
    ∀ (p : String) (acc : Nat), List.Chain' (fun a b => a ≠ b) (p :: t) →
      countFlipsAux (some p) acc (t.map some) = acc + t.length := by
  induction t with
  | nil => intro p acc _; simp [countFlipsAux]
  | cons v t2 ih =>
      intro p acc hch
      rw [List.chain'_cons] at hch
      have hvp : v ≠ p := Ne.symm hch.1
      simp only [List.map_cons, countFlipsAux, if_pos hvp]
      rw [ih v (acc + 1) hch.2]
      simp [List.length_cons]
      omega

theorem count_flips_alternating (seq : List String)
    (h : List.Chain' (fun a b => a ≠ b) seq) :
    count_flips (seq.map some) = seq.length - 1 := by
  cases seq with
  | nil => rfl
  | cons p t =>
      simp only [count_flips, List.map_cons, countFlipsAux]
      rw [countFlipsAux_alternating t p 0 h]
      simp

/-! ## Helper lemmas about max-selection -/

theorem pickMax_votes_le_self (l : List Row) :
    ∀ b : Row, votesD b ≤ votesD (pickMax b l) := by
  induction l with
  | nil => intro b; exact le_refl _
  | cons r rs ih =>
      intro b
      simp only [pickMax]
      by_cases h : votesD b < votesD r
      · exact le_trans (le_of_lt h) (by simpa [if_pos h] using ih r)
      · simpa [if_neg h] using ih b

theorem pickMax_votes_le_mem (l : List Row) :
    ∀ (b x : Row), x ∈ l → votesD x ≤ votesD (pickMax b l) := by
  induction l with
  | nil => intro b x hx; cases hx
  | cons r rs ih =>
      intro b x hx
      simp only [pickMax]
      rcases List.mem_cons.mp hx with hxr | hxrs
      · subst hxr
        by_cases h : votesD b < votesD x
        · simpa [if_pos h] using pickMax_votes_le_self rs x
        · exact le_trans (le_of_not_lt h) (by simpa [if_neg h] using pickMax_votes_le_self rs b)
      · by_cases h : votesD b < votesD r
        · simpa [if_pos h] using ih r x hxrs
        · simpa [if_neg h] using ih b x hxrs

theorem pickMax_mem (l : List Row) :
    ∀ b : Row, pickMax b l = b ∨ pickMax b l ∈ l := by
  induction l with
  | nil => intro b; exact Or.inl rfl
  | cons r rs ih =>
      intro b
      simp only [pickMax]
      by_cases h : votesD b < votesD r
      · rw [if_pos h]
        rcases ih r with he | hm
        · exact Or.inr (by simp [he])
        · exact Or.inr (by simp [hm])
      · rw [if_neg h]
        rcases ih b with he | hm
        · exact Or.inl he
        · exact Or.inr (by simp [hm])

theorem pickMax_of_all_le (l : List Row) :
    ∀ b : Row, (∀ x ∈ l, votesD x ≤ votesD b) → pickMax b l = b := by
  induction l with
  | nil => intro b _; rfl
  | cons r rs ih =>
      intro b hb
      have hr : votesD r ≤ votesD b := hb r (by simp)
      simp only [pickMax, if_neg (not_lt.mpr hr)]
      exact ih b (fun x hx => hb x (by simp [hx]))

theorem pickMax_hits_target (l2 : List Row) (r : Row)
    (h2 : ∀ x ∈ l2, votesD x ≤ votesD r) :
    ∀ (l1 : List Row) (b : Row), votesD b < votesD r →
      (∀ x ∈ l1, votesD x < votesD r) → pickMax b (l1 ++ r :: l2) = r := by
  intro l1
  induction l1 with
  | nil =>
      intro b hb _
      simp only [List.nil_append, pickMax, if_pos hb]
      exact pickMax_of_all_le l2 r h2
  | cons a t ih =>
      intro b hb h1
      have ha : votesD a < votesD r := h1 a (by simp)
      simp only [List.cons_append, pickMax]
      by_cases h : votesD b < votesD a
      · rw [if_pos h]
        exact ih a ha (fun x hx => h1 x (by simp [hx]))
      · rw [if_neg h]
        exact ih b hb (fun x hx => h1 x (by simp [hx]))

/-! ## Membership characterizations -/

theorem mem_groupRows (df : DataFrame) (g s : String) (y : Int) (r : Row) :
    r ∈ groupRows df g s y ↔
      r ∈ df.rows ∧ r.candidatevotes.isSome = true ∧ r.get g = some s ∧ r.year = y := by
  simp only [groupRows, qualRows, List.mem_filter, Bool.and_eq_true, beq_iff_eq]
  constructor
  · rintro ⟨⟨hr, hv, _⟩, hs, hy⟩
    exact ⟨hr, hv, hs, hy⟩
  · rintro ⟨hr, hv, hs, hy⟩
    exact ⟨⟨hr, hv, by simp [hs]⟩, hs, hy⟩

theorem mem_insertSorted (y x : Int) (l : List Int) :
    x ∈ insertSorted y l ↔ x = y ∨ x ∈ l := by
  induction l with
  | nil => simp [insertSorted]
  | cons a t ih =>
      simp only [insertSorted]
      by_cases h : y ≤ a
      · simp [if_pos h]
      · simp only [if_neg h, List.mem_cons, ih]
        tauto

theorem mem_sortInts (x : Int) (l : List Int) : x ∈ sortInts l ↔ x ∈ l := by
  induction l with
  | nil => simp [sortInts]
  | cons a t ih =>
      simp only [sortInts, List.foldr_cons]
      rw [show List.foldr insertSorted [] t = sortInts t from rfl]
      rw [mem_insertSorted, ih]
      simp

theorem mem_eraseDups_loop {α : Type} [BEq α] [LawfulBEq α] (x : α) :
    ∀ (as bs : List α), x ∈ List.eraseDups.loop as bs ↔ x ∈ as ∨ x ∈ bs := by
  intro as
  induction as with
  | nil => intro bs; simp [List.eraseDups.loop]
  | cons a t ih =>
      intro bs
      simp only [List.eraseDups.loop]
      by_cases h : bs.elem a = true
      · rw [h]
        simp only [ih]
        have ha : a ∈ bs := List.elem_iff.mp h
        constructor
        · rintro (hx | hx)
          · exact Or.inl (by simp [hx])
          · exact Or.inr hx
        · rintro (hx | hx)
          · rcases List.mem_cons.mp hx with he | hm
            · exact Or.inr (he ▸ ha)
            · exact Or.inl hm
          · exact Or.inr hx
      · rw [Bool.not_eq_true] at h
        rw [h]
        simp only [ih, List.mem_cons]
        tauto

theorem mem_eraseDups {α : Type} [BEq α] [LawfulBEq α] (x : α) (l : List α) :
    x ∈ l.eraseDups ↔ x ∈ l := by
  simpa using mem_eraseDups_loop x l []

theorem mem_winnerYears (df : DataFrame) (g : String) (y : Int) :
    y ∈ winnerYears df g ↔ ∃ r ∈ qualRows df g, r.year = y := by
  simp only [winnerYears, mem_sortInts, mem_eraseDups, List.mem_map]

/-! ## Result-shape lemmas -/

theorem lookupCount_map_of_mem (d : List String) (v : String → Nat) (s : String)
    (hs : s ∈ d) :
    lookupCount (d.map (fun st => (st, v st))) s = some (v s) := by
  induction d with
  | nil => cases hs
  | cons a t ih =>
      by_cases h : a = s
      · subst h
        simp [lookupCount, List.find?_cons_of_pos]
      · have h2 : s ∈ t := by
          rcases List.mem_cons.mp hs with he | hm
          · exact absurd he.symm h
          · exact hm
        simp only [lookupCount, List.map_cons]
        rw [List.find?_cons_of_neg _ (by simp [h])]
        simpa [lookupCount] using ih h2

theorem compute_flip_counts_eq (df : DataFrame) (g : String) (a b : Option Int)
    (hg : resolveGroupCol df.columns = some g) (hne : winnerYears df g ≠ []) :
    compute_flip_counts df a b = .ok ((get_display_states df).map (fun st =>
      (st, if (winnerStates df g).contains st = true
           then stateCount df g (yearsRange df g a b) st else 0))) := by
  simp only [compute_flip_counts, hg]
  rw [if_neg hne]

theorem yearsRange_of_reversed (df : DataFrame) (g : String) (a b : Int)
    (hab : b < a) : yearsRange df g (some a) (some b) = [] := by
  unfold yearsRange
  cases h : winnerYears df g with
  | nil => rfl
  | cons y0 t =>
      simp only [Option.getD_some]
      apply List.filter_eq_nil_iff.mpr
      intro y _
      simp only [Bool.and_eq_true, decide_eq_true_eq, not_and]
      intro h1
      omega

theorem yearsRange_subset_winnerYears (df : DataFrame) (g : String)
    (a b : Option Int) (y : Int) (hy : y ∈ yearsRange df g a b) :
    y ∈ winnerYears df g := by
  unfold yearsRange at hy
  cases h : winnerYears df g with
  | nil => rw [h] at hy; cases hy
  | cons y0 t =>
      rw [h] at hy
      simp only [List.mem_filter] at hy
      exact hy.1

/-! ## Concrete datasets used by counterexamples and witnesses -/

/-- Alabama races in 2000 (Democrat) and 2004 (Republican); Alaska races in
2002.  2002 is a no-race gap year for Alabama that is nevertheless present
in the iterated year list. -/
def dfGap : DataFrame :=
  ⟨["state_po"],
   [⟨2000, "Democrat", some 10, [("state_po", "AL")]⟩,
    ⟨2002, "Democrat", some 10, [("state_po", "AK")]⟩,
    ⟨2004, "Republican", some 10, [("state_po", "AL")]⟩]⟩

/-- Alabama alone: Democrat in 2000, Republican in 2004, no other state. -/
def dfPair : DataFrame :=
  ⟨["state_po"],
   [⟨2000, "Democrat", some 10, [("state_po", "AL")]⟩,
    ⟨2004, "Republican", some 10, [("state_po", "AL")]⟩]⟩

/-- A dataset with a state column but no rows: its winner table is empty. -/
def dfEmptyRows : DataFrame := ⟨["state_po"], []⟩

/-- A dataset whose only Winner Record belongs to `PR`, a postal code
outside the canonical 50-state list (and not `DC`). -/
def dfPR : DataFrame :=
  ⟨["state_po"], [⟨2000, "Democrat", some 10, [("state_po", "PR")]⟩]⟩

/-- Two Alabama rows in 2000 with equal maximal votes: a tie. -/
def dfTie : DataFrame :=
  ⟨["state_po"],
   [⟨2000, "Democrat", some 10, [("state_po", "AL")]⟩,
    ⟨2000, "Republican", some 10, [("state_po", "AL")]⟩]⟩

/-- Three Alabama rows in 2000: winner with 10 votes, loser with 5, and a
row with null votes that must be excluded before max-selection. -/
def dfVotes : DataFrame :=
  ⟨["state_po"],
   [⟨2000, "Democrat", some 10, [("state_po", "AL")]⟩,
    ⟨2000, "Republican", some 5, [("state_po", "AL")]⟩,
    ⟨2000, "Other", none, [("state_po", "AL")]⟩]⟩

/-- Alabama alone with a single qualifying year. -/
def dfSingle : DataFrame :=
  ⟨["state_po"], [⟨2000, "Democrat", some 10, [("state_po", "AL")]⟩]⟩

/-- A dataset with no state column at all. -/
def dfNoCol1 : DataFrame := ⟨["yr"], []⟩

/-- A different dataset, also with no state column. -/
def dfNoCol2 : DataFrame := ⟨["foo"], []⟩

/-- A third dataset without a state column, used by the error witness. -/
def dfNoCol3 : DataFrame := ⟨["year", "party"], []⟩

/-! ## Claim C1 -/

/-- C1 counterexample: in `dfGap`, Alabama wins Democrat in 2000, has no
race in 2002 (a gap year that other data keeps inside the iterated year
list), and wins Republican in 2004 — yet `compute_flip_counts` reports 0
flips for Alabama, not the 1 flip the claim requires: the gap year reset
the memory of the prior winner. -/
theorem gap_year_resets_memory_cex :
    winnerParty dfGap "state_po" "AL" 2000 = some "Democrat"
    ∧ winnerParty dfGap "state_po" "AL" 2002 = none
    ∧ winnerParty dfGap "state_po" "AL" 2004 = some "Republican"
    ∧ yearsRange dfGap "state_po" none none = [2000, 2002, 2004]
    ∧ (compute_flip_counts dfGap none none).toOption.map (fun l => lookupCount l "AL")
        = some (some 0) :=
  ⟨by decide, by decide, by decide, by decide, by decide⟩

/-- C1 (amended): the flip scan treats an iterated no-race cell as a hard
reset — the count over a sequence split by a `none` is the sum of the
counts of the two halves, so Democrat–gap–Republican yields 0 flips, not
1.  Only a year with no Winner Record for any state stays out of the
iterated year list: every iterated year is the year of some qualifying
row. -/
theorem count_flips_gap_split :
    (∀ l1 l2 : List (Option String),
        count_flips (l1 ++ none :: l2) = count_flips l1 + count_flips l2)
    ∧ (∀ (df : DataFrame) (g : String) (a b : Option Int) (y : Int),
        y ∈ yearsRange df g a b → ∃ r ∈ qualRows df g, r.year = y) := by
  constructor
  · intro l1 l2
    simpa [count_flips] using countFlipsAux_append_none l1 l2 none 0
  · intro df g a b y hy
    exact (mem_winnerYears df g y).mp (yearsRange_subset_winnerYears df g a b y hy)

/-- C1 witness: the split equation at a concrete Democrat–gap–Republican
sequence, and a concrete iterated gap year backed by a qualifying row. -/
theorem count_flips_gap_split_witness :
    count_flips ([some "Democrat"] ++ none :: [some "Republican"])
      = count_flips [some "Democrat"] + count_flips [some "Republican"]
    ∧ ∃ r ∈ qualRows dfGap "state_po", r.year = 2002 :=
  ⟨count_flips_gap_split.1 [some "Democrat"] [some "Republican"],
   count_flips_gap_split.2 dfGap "state_po" none none 2002 (by decide)⟩

/-! ## Claim C2 -/

/-- C2 counterexample: on `dfPair` (Alabama: Democrat 2000, Republican
2004) the reversed range `(2004, 2000)` yields flip count 0 for Alabama
while `(2000, 2004)` yields 1: the endpoints are not swapped. -/
theorem reversed_range_not_normalized_cex :
    (compute_flip_counts dfPair (some 2004) (some 2000)).toOption.map
        (fun l => lookupCount l "AL") = some (some 0)
    ∧ (compute_flip_counts dfPair (some 2000) (some 2004)).toOption.map
        (fun l => lookupCount l "AL") = some (some 1)
    ∧ (compute_flip_counts dfPair (some 2004) (some 2000)).toOption.map
        (fun l => lookupCount l "AL")
      ≠ (compute_flip_counts dfPair (some 2000) (some 2004)).toOption.map
        (fun l => lookupCount l "AL") :=
  ⟨by decide, by decide, by decide⟩

/-- C2 (amended): a reversed range `(a, b)` with `b < a` is not swapped:
the year filter selects nothing, so every display state is reported with
flip count 0 (no error is raised, but the result generally differs from
the one for `(b, a)`). -/
theorem reversed_range_all_zero (df : DataFrame) (g : String) (a b : Int)
    (hg : resolveGroupCol df.columns = some g) (hne : winnerYears df g ≠ [])
    (hab : b < a) :
    compute_flip_counts df (some a) (some b)
      = .ok ((get_display_states df).map (fun st => (st, 0))) := by
  rw [compute_flip_counts_eq df g (some a) (some b) hg hne]
  rw [yearsRange_of_reversed df g a b hab]
  simp [stateCount, count_flips, countFlipsAux]

/-- C2 witness: the all-zero result at the concrete reversed call
`(2004, 2000)` on `dfPair`. -/
theorem reversed_range_all_zero_witness :
    compute_flip_counts dfPair (some 2004) (some 2000)
      = .ok ((get_display_states dfPair).map (fun st => (st, 0))) :=
  reversed_range_all_zero dfPair "state_po" 2004 2000 (by decide) (by decide)
    (by decide)

/-! ## Claim C3 -/

/-- C3: the Winner Resolver excludes null-vote rows, produces a winner
exactly for the `(state_code, year)` pairs with at least one qualifying
row (rows with non-null votes and a non-null state cell for that pair),
and the winner is a qualifying row of the pair attaining the maximal
`candidatevotes`; at most one winner per pair is structural
(`winnerFor` is a function into `Option`). -/
theorem winner_resolver_correct (df : DataFrame) (g s : String) (y : Int)
    (hg : resolveGroupCol df.columns = some g) :
    (∀ r, winnerFor df g s y = some r →
        (r ∈ df.rows ∧ r.candidatevotes.isSome = true ∧ r.get g = some s ∧ r.year = y)
        ∧ ∀ r2 ∈ df.rows, r2.candidatevotes.isSome = true → r2.get g = some s →
            r2.year = y → votesD r2 ≤ votesD r)
    ∧ (winnerFor df g s y = none ↔
        ∀ r2 ∈ df.rows,
          ¬(r2.candidatevotes.isSome = true ∧ r2.get g = some s ∧ r2.year = y)) := by
  constructor
  · intro r hr
    cases hG : groupRows df g s y with
    | nil => rw [winnerFor, hG] at hr; cases hr
    | cons r0 rs =>
        rw [winnerFor, hG] at hr
        simp only [argmaxFirst] at hr
        injection hr with hr
        constructor
        · have hin : pickMax r0 rs ∈ r0 :: rs := by
            rcases pickMax_mem rs r0 with he | hm
            · simp [he]
            · simp [hm]
          have hmem : pickMax r0 rs ∈ groupRows df g s y := by rw [hG]; exact hin
          rw [hr] at hmem
          exact (mem_groupRows df g s y r).mp hmem
        · intro r2 h2a h2b h2c h2d
          have h2 : r2 ∈ groupRows df g s y :=
            (mem_groupRows df g s y r2).mpr ⟨h2a, h2b, h2c, h2d⟩
          rw [hG] at h2
          rw [← hr]
          rcases List.mem_cons.mp h2 with he | hm
          · rw [he]; exact pickMax_votes_le_self rs r0
          · exact pickMax_votes_le_mem rs r0 r2 hm
  · constructor
    · intro hnone r2 hr2 hprops
      have h2 : r2 ∈ groupRows df g s y :=
        (mem_groupRows df g s y r2).mpr ⟨hr2, hprops.1, hprops.2.1, hprops.2.2⟩
      cases hG : groupRows df g s y with
      | nil => rw [hG] at h2; cases h2
      | cons r0 rs =>
          rw [winnerFor, hG] at hnone
          simp [argmaxFirst] at hnone
    · intro hall
      cases hG : groupRows df g s y with
      | nil => rw [winnerFor, hG]; rfl
      | cons r0 rs =>
          exfalso
          have h0 : r0 ∈ groupRows df g s y := by rw [hG]; simp
          have hp := (mem_groupRows df g s y r0).mp h0
          exact hall r0 hp.1 ⟨hp.2.1, hp.2.2.1, hp.2.2.2⟩

/-- C3 witness: on `dfVotes` (winner 10 votes, loser 5 votes, one null-vote
row) the resolved winner's votes dominate the loser's. -/
theorem winner_resolver_correct_witness :
    votesD ⟨2000, "Republican", some 5, [("state_po", "AL")]⟩
      ≤ votesD ⟨2000, "Democrat", some 10, [("state_po", "AL")]⟩ := by
  have h := (winner_resolver_correct dfVotes "state_po" "AL" 2000 (by decide)).1
    ⟨2000, "Democrat", some 10, [("state_po", "AL")]⟩ (by decide)
  exact h.2 ⟨2000, "Republican", some 5, [("state_po", "AL")]⟩
    (by decide) (by decide) (by decide) (by decide)

/-! ## Claim C8 -/

/-- C8: max-selection is a stable first-occurrence pick — when the
qualifying rows of a `(state_code, year)` group split as
`l1 ++ r :: l2` with every row before `r` strictly below `r`'s votes and
every row after at most `r`'s votes (so `r` is the first row attaining
the maximum, including ties), the resolver selects exactly `r`;
reproducibility over a fixed input ordering is inherent, the resolver
being a function of the ordered row list. -/
theorem winner_tie_first_in_input_order (df : DataFrame) (g s : String) (y : Int)
    (l1 l2 : List Row) (r : Row)
    (hg : resolveGroupCol df.columns = some g)
    (hsplit : groupRows df g s y = l1 ++ r :: l2)
    (hlt : ∀ x ∈ l1, votesD x < votesD r)
    (hle : ∀ x ∈ l2, votesD x ≤ votesD r) :
    winnerFor df g s y = some r := by
  rw [winnerFor, hsplit]
  cases l1 with
  | nil =>
      simp only [List.nil_append, argmaxFirst]
      rw [pickMax_of_all_le l2 r hle]
  | cons a t =>
      simp only [List.cons_append, argmaxFirst]
      have ha : votesD a < votesD r := hlt a (by simp)
      rw [pickMax_hits_target l2 r hle t a ha (fun x hx => hlt x (by simp [hx]))]

/-- C8 witness: on `dfTie` (two Alabama rows with equal maximal votes) the
resolver returns the first row in input order, the Democrat one. -/
theorem winner_tie_first_in_input_order_witness :
    winnerFor dfTie "state_po" "AL" 2000
      = some ⟨2000, "Democrat", some 10, [("state_po", "AL")]⟩ :=
  winner_tie_first_in_input_order dfTie "state_po" "AL" 2000 []
    [⟨2000, "Republican", some 10, [("state_po", "AL")]⟩]
    ⟨2000, "Democrat", some 10, [("state_po", "AL")]⟩
    (by decide) (by decide) (by decide) (by decide)

/-! ## Claim C4 -/

/-- C4 counterexample: a dataset with a state column but no rows has an
empty winner table, and `compute_flip_counts` returns the empty frame
before the reindex step — so the display state `AL` has no entry at all,
contradicting the claim for empty winner tables. -/
theorem empty_winner_table_missing_states_cex :
    compute_flip_counts dfEmptyRows none none = .ok []
    ∧ "AL" ∈ get_display_states dfEmptyRows
    ∧ lookupCount [] "AL" = none :=
  ⟨rfl, by decide, rfl⟩

/-- C4 (amended): when the winner table is nonempty, the reindex makes the
result keys exactly the Display State Set, and every display state with no
qualifying Winner Records in the requested range — no winner at any
iterated in-range year, whether its records lie outside the range or it
has none at all — is reported explicitly as 0; when the winner table is
empty, the function instead returns an empty mapping with no display-state
keys. -/
theorem reindex_completeness_nonempty (df : DataFrame) (g : String)
    (a b : Option Int) (l : List (String × Nat))
    (hg : resolveGroupCol df.columns = some g)
    (hne : winnerYears df g ≠ [])
    (hok : compute_flip_counts df a b = .ok l) :
    l.map Prod.fst = get_display_states df
    ∧ ∀ s ∈ get_display_states df,
        (∀ y ∈ yearsRange df g a b, winnerParty df g s y = none) →
        lookupCount l s = some 0 := by
  rw [compute_flip_counts_eq df g a b hg hne] at hok
  injection hok with hok
  constructor
  · rw [← hok, List.map_map]
    exact List.map_id _
  · intro s hs hz
    rw [← hok]
    rw [lookupCount_map_of_mem (get_display_states df)
      (fun st => if (winnerStates df g).contains st = true
                 then stateCount df g (yearsRange df g a b) st else 0) s hs]
    by_cases hc : (winnerStates df g).contains s = true
    · rw [if_pos hc]
      have h0 : stateCount df g (yearsRange df g a b) s = 0 := by
        unfold stateCount count_flips
        apply countFlipsAux_all_none
        intro x hx
        rcases List.mem_map.mp hx with ⟨y, hy, he⟩
        rw [← he]
        exact hz y hy
      rw [h0]
    · rw [if_neg hc]

/-- C4 witness: in `dfGap` over the requested range `[2001, 2003]`,
Alabama's Winner Records (2000 and 2004) all fall outside the range — the
only iterated year is 2002, where Alabama has no race — and Alabama is
still reported explicitly as 0. -/
theorem reindex_completeness_nonempty_witness :
    lookupCount ((get_display_states dfGap).map (fun st =>
      (st, if (winnerStates dfGap "state_po").contains st = true
           then stateCount dfGap "state_po"
                  (yearsRange dfGap "state_po" (some 2001) (some 2003)) st
           else 0))) "AL" = some 0 :=
  (reindex_completeness_nonempty dfGap "state_po" (some 2001) (some 2003) _
    (by decide) (by decide) (by rfl)).2 "AL" (by decide) (by decide)

/-! ## Claim C5 -/

/-- C5 counterexample: `PR` has a Winner Record in `dfPR`, but the
flip-count output reindexes against the canonical display states only, so
`PR` is dropped from the result — contradicting the claim that winner
states outside the canonical set are carried into the output. -/
theorem extra_state_dropped_cex :
    winnerStates dfPR "state_po" = ["PR"]
    ∧ (compute_flip_counts dfPR none none).toOption.map (fun l => lookupCount l "PR")
        = some none
    ∧ "PR" ∉ get_display_states dfPR :=
  ⟨by decide, by decide, by decide⟩

/-- C5 (amended): the key set of the flip-count output is bounded by
`get_display_states` — the canonical 50 states plus possibly `DC` — and
any state code outside that set is absent from the output even when it has
Winner Records; the appending of extra winner codes happens only in the
flip-map renderer, not in `compute_flip_counts`. -/
theorem display_set_bounds_output (df : DataFrame) (g : String)
    (a b : Option Int) (l : List (String × Nat)) (s : String)
    (hg : resolveGroupCol df.columns = some g)
    (hok : compute_flip_counts df a b = .ok l)
    (hs : s ∉ get_display_states df) :
    lookupCount l s = none
    ∧ (get_display_states df = US_50_STATES
       ∨ get_display_states df = US_50_STATES ++ ["DC"]) := by
  constructor
  · by_cases hne : winnerYears df g = []
    · have h0 : compute_flip_counts df a b = .ok [] := by
        simp only [compute_flip_counts, hg]
        rw [if_pos hne]
      rw [h0] at hok
      injection hok with hok
      rw [← hok]
      rfl
    · rw [compute_flip_counts_eq df g a b hg hne] at hok
      injection hok with hok
      rw [← hok]
      unfold lookupCount
      rw [List.find?_eq_none.mpr ?hall]
      · rfl
      case hall =>
        intro x hx
        rcases List.mem_map.mp hx with ⟨st, hst, hxe⟩
        rw [← hxe]
        simp only [beq_iff_eq]
        intro he
        exact hs (he ▸ hst)
  · simp only [get_display_states]
    split
    · split
      · right; rfl
      · left; rfl
    · left; rfl

/-- C5 witness: `PR` is absent from the reindexed output of `dfPR`, whose
display set is one of the two canonical shapes. -/
theorem display_set_bounds_output_witness :
    lookupCount ((get_display_states dfPR).map (fun st =>
      (st, if (winnerStates dfPR "state_po").contains st = true
           then stateCount dfPR "state_po" (yearsRange dfPR "state_po" none none) st
           else 0))) "PR" = none
    ∧ (get_display_states dfPR = US_50_STATES
       ∨ get_display_states dfPR = US_50_STATES ++ ["DC"]) :=
  display_set_bounds_output dfPR "state_po" none none _ "PR"
    (by decide) (by rfl) (by decide)

/-! ## Claim C6 -/

theorem length_filter_isSome_map (yrs : List Int) (f : Int → Option String) :
    ((yrs.map f).filter (fun o => o.isSome)).length
      = (yrs.filter (fun y => (f y).isSome)).length := by
  induction yrs with
  | nil => rfl
  | cons a t ih =>
      by_cases h : (f a).isSome = true
      · simp [List.filter_cons, h, ih]
      · simp [List.filter_cons, h, ih]

/-- C6: every reported flip count is a natural number (non-negative by
type), and a state whose qualifying years in the requested range number at
most one — exactly one Winner Record in range, or none — is reported with
flip count 0. -/
theorem flip_count_zero_baseline (df : DataFrame) (g : String)
    (a b : Option Int) (l : List (String × Nat)) (s : String) (n : Nat)
    (hg : resolveGroupCol df.columns = some g)
    (hok : compute_flip_counts df a b = .ok l)
    (hmem : (s, n) ∈ l)
    (hq : ((yearsRange df g a b).filter
            (fun y => (winnerParty df g s y).isSome)).length ≤ 1) :
    n = 0 := by
  by_cases hne : winnerYears df g = []
  · have h0 : compute_flip_counts df a b = .ok [] := by
      simp only [compute_flip_counts, hg]
      rw [if_pos hne]
    rw [h0] at hok
    injection hok with hok
    rw [← hok] at hmem
    cases hmem
  · rw [compute_flip_counts_eq df g a b hg hne] at hok
    injection hok with hok
    rw [← hok] at hmem
    rcases List.mem_map.mp hmem with ⟨st, hst, he⟩
    have hs : st = s := congrArg Prod.fst he
    have hn : (if (winnerStates df g).contains st = true
               then stateCount df g (yearsRange df g a b) st else 0) = n :=
      congrArg Prod.snd he
    subst hs
    by_cases hc : (winnerStates df g).contains st = true
    · rw [if_pos hc] at hn
      rw [← hn]
      unfold stateCount
      apply count_flips_of_le_one
      rw [length_filter_isSome_map]
      exact hq
    · rw [if_neg hc] at hn
      exact hn.symm

/-- C6 witness: in `dfSingle`, Alabama has exactly one qualifying year and
its reported flip count is 0. -/
theorem flip_count_zero_baseline_witness :
    ("AL", 0) ∈ (get_display_states dfSingle).map (fun st =>
      (st, if (winnerStates dfSingle "state_po").contains st = true
           then stateCount dfSingle "state_po"
                  (yearsRange dfSingle "state_po" none none) st
           else 0))
    ∧ (0 : Nat) = 0 :=
  ⟨by decide,
   flip_count_zero_baseline dfSingle "state_po" none none _ "AL" 0
     (by decide) (by rfl) (by decide) (by decide)⟩

/-! ## Claim C7 -/

/-- C7 counterexample: in `dfGap`, Alabama has N = 2 qualifying years in
range (2000 Democrat, 2004 Republican) with alternating parties, so the
claim requires flip count N − 1 = 1; but the interleaved 2002 gap year
resets the scan and `compute_flip_counts` reports 0. -/
theorem alternating_with_gap_cex :
    ((yearsRange dfGap "state_po" none none).filter
        (fun y => (winnerParty dfGap "state_po" "AL" y).isSome)) = [2000, 2004]
    ∧ winnerParty dfGap "state_po" "AL" 2000 = some "Democrat"
    ∧ winnerParty dfGap "state_po" "AL" 2004 = some "Republican"
    ∧ (compute_flip_counts dfGap none none).toOption.map (fun l => lookupCount l "AL")
        = some (some 0) :=
  ⟨by decide, by decide, by decide, by decide⟩

/-- C7 (amended): a state whose pivot row over the iterated years is
gap-free — the per-year winner sequence is `seq.map some` for a list `seq`
of parties — and alternating (adjacent parties distinct) is reported with
flip count `seq.length − 1`; with interleaved no-race years the scan
resets and can report less. -/
theorem alternating_flip_count (df : DataFrame) (g : String)
    (a b : Option Int) (l : List (String × Nat)) (seq : List String) (s : String)
    (hg : resolveGroupCol df.columns = some g)
    (hne : winnerYears df g ≠ [])
    (hok : compute_flip_counts df a b = .ok l)
    (hdisp : s ∈ get_display_states df)
    (hws : s ∈ winnerStates df g)
    (hseq : (yearsRange df g a b).map (fun y => winnerParty df g s y) = seq.map some)
    (halt : List.Chain' (fun p q => p ≠ q) seq) :
    lookupCount l s = some (seq.length - 1) := by
  rw [compute_flip_counts_eq df g a b hg hne] at hok
  injection hok with hok
  rw [← hok]
  rw [lookupCount_map_of_mem (get_display_states df)
    (fun st => if (winnerStates df g).contains st = true
               then stateCount df g (yearsRange df g a b) st else 0) s hdisp]
  rw [if_pos (List.elem_iff.mpr hws)]
  unfold stateCount
  rw [hseq]
  rw [count_flips_alternating seq halt]

/-- C7 witness: Alabama in `dfPair` alternates over its two gap-free
qualifying years and is reported with flip count 1 = 2 − 1. -/
theorem alternating_flip_count_witness :
    lookupCount ((get_display_states dfPair).map (fun st =>
      (st, if (winnerStates dfPair "state_po").contains st = true
           then stateCount dfPair "state_po" (yearsRange dfPair "state_po" none none) st
           else 0))) "AL"
      = some ((["Democrat", "Republican"] : List String).length - 1) :=
  alternating_flip_count dfPair "state_po" none none _ ["Democrat", "Republican"] "AL"
    (by decide) (by decide) (by rfl) (by decide) (by decide) (by decide)
    (List.chain'_cons.mpr ⟨by decide, List.chain'_singleton _⟩)

/-! ## Claim C9 -/

/-- C9: `compute_flip_counts` is a pure function of the dataset and the
two endpoints — equal inputs give equal per-state results (the shallow
embedding mirrors the source, which copies the frame before filtering and
touches no global state). -/
theorem compute_flip_counts_pure (d1 d2 : DataFrame) (a1 a2 b1 b2 : Option Int)
    (hd : d1 = d2) (ha : a1 = a2) (hb : b1 = b2) :
    compute_flip_counts d1 a1 b1 = compute_flip_counts d2 a2 b2 := by
  subst hd
  subst ha
  subst hb
  rfl

/-- C9 witness: two identical calls on `dfPair` agree. -/
theorem compute_flip_counts_pure_witness :
    compute_flip_counts dfPair none none = compute_flip_counts dfPair none none :=
  compute_flip_counts_pure dfPair dfPair none none none none rfl rfl rfl

/-! ## Claim C10 -/

/-- C10 counterexample: two different datasets without a state column
produce the identical fixed error message, so the error cannot identify
the dataset. -/
theorem fixed_error_message_cex :
    compute_flip_counts dfNoCol1 none none = .error "No state column found"
    ∧ compute_flip_counts dfNoCol2 none none = .error "No state column found"
    ∧ dfNoCol1 ≠ dfNoCol2 :=
  ⟨rfl, rfl, by decide⟩

/-- C10 (amended): when no column is named (case-insensitively) `state_po`
or `state`, winner resolution fails fast with the fixed descriptive error
`No state column found` instead of returning any result; the message does
not name the dataset. -/
theorem missing_state_column_error (df : DataFrame) (a b : Option Int)
    (h : ∀ c ∈ df.columns, lowerStr c ≠ "state_po" ∧ lowerStr c ≠ "state") :
    compute_flip_counts df a b = .error "No state column found" := by
  have hres : resolveGroupCol df.columns = none := by
    unfold resolveGroupCol
    have h1 : List.find? (fun p => df.columns.contains p) ["state_po", "state"]
        = none := by
      apply List.find?_eq_none.mpr
      intro p hp
      simp only [List.mem_cons, List.not_mem_nil, or_false] at hp
      intro hcp
      have hpc : p ∈ df.columns := List.elem_iff.mp hcp
      rcases hp with h1 | h1
      · subst h1
        exact (h _ hpc).1 (by decide)
      · subst h1
        exact (h _ hpc).2 (by decide)
    rw [h1]
    apply List.find?_eq_none.mpr
    intro c hc
    simp only [Bool.or_eq_true, beq_iff_eq]
    rintro (hx | hx)
    · exact (h c hc).1 hx
    · exact (h c hc).2 hx
  simp only [compute_flip_counts, hres]

/-- C10 witness: a concrete dataset with columns `year` and `party` only
triggers the fixed error. -/
theorem missing_state_column_error_witness :
    compute_flip_counts dfNoCol3 none none = .error "No state column found" :=
  missing_state_column_error dfNoCol3 none none (by decide)
